import Mathlib

/-!
Shallow embedding of the DALI TensorFlow example notebook
`docs/examples/frameworks/tensorflow/tensorflow-various-readers.ipynb`.

The notebook is glue code: cell-2 reads the `DALI_EXTRA_PATH` environment
variable and derives dataset paths from it, cell-4 creates a TFRecord index
file by invoking the external `tfrecord2idx` script when the index file is
absent, cells 6-14 declare five pipeline classes (a `CommonPipeline` base
holding the decode/resize/crop-normalize operators, and four reader
subclasses), cell-16 builds one pipeline per simulated GPU, and cell-18 runs
a fixed-iteration self-test loop asserting that every returned label is
integral and within a per-reader range, printing RUN/OK status lines.

Label values are modelled as rationals (the notebook checks them with
`np.mod(label, 1) == 0` and range comparisons); the operator graph is
modelled as a small expression tree; the external library's behaviour
(what batches a session actually returns) is an arbitrary feed parameter.
-/

namespace VariousReaders

/-! ### Cell 2: global constants and paths -/

def N : Nat := 8

def BATCH_SIZE : Nat := 128

def ITERATIONS : Nat := 32

def IMAGE_SIZE : Nat := 3

def image_dir : String := "../../data/images"

def tfrecord_idx : String := "idx_files/train.idx"

def tfrecord2idx_script : String := "tfrecord2idx"

def ENV_KEY : String := "DALI_EXTRA_PATH"

/-- Python os.path.join on two components, for POSIX paths. -/
def pathJoin (a b : String) : String :=
  if b.startsWith "/" then b
  else if a = "" then b
  else if a.endsWith "/" then a ++ b
  else a ++ "/" ++ b

/-- The dataset paths cell-2 derives from the data root. -/
structure Paths where
  test_data_root : String
  db_folder : String
  lmdb_folder : String
  tfrecord : String
deriving Repr, DecidableEq

/-- Cell-2: read `DALI_EXTRA_PATH` (a missing key raises `KeyError` in
Python, modelled as the error branch) and derive the dataset paths. -/
def cell2 (env : String → Option String) : Except String Paths :=
  match env ENV_KEY with
  | none => Except.error "KeyError: DALI_EXTRA_PATH"
  | some root =>
      Except.ok
        { test_data_root := root
          db_folder := pathJoin (pathJoin root "db") "recordio/"
          lmdb_folder := pathJoin (pathJoin root "db") "lmdb"
          tfrecord := pathJoin (pathJoin (pathJoin root "db") "tfrecord") "train" }

/-! ### Cell 4: index-file creation -/

/-- The externally visible effects of cell-4: directories created via
`os.mkdir` and command lines run via `subprocess.call`. -/
structure Cell4Effect where
  mkdirCalls : List String
  subprocessCalls : List (List String)
deriving Repr, DecidableEq

/-- Cell-4: make the `idx_files` directory when absent, and invoke the
`tfrecord2idx` script on the TFRecord file when `tfrecord_idx` is not an
existing file. -/
def cell4 (tfrecordPath : String) (idxDirPresent idxFileIsFile : Bool) : Cell4Effect :=
  { mkdirCalls := if idxDirPresent then [] else ["idx_files"]
    subprocessCalls :=
      if idxFileIsFile then []
      else [[tfrecord2idx_script, tfrecordPath, tfrecord_idx]] }

/-- The whole setup sequence as executed in order: cell-2 first; when it
raises, cell-4 never runs and no external command is invoked. -/
def runSetup (env : String → Option String) (idxDirPresent idxFileIsFile : Bool) :
    Except String (Paths × Cell4Effect) :=
  match cell2 env with
  | Except.error e => Except.error e
  | Except.ok p => Except.ok (p, cell4 p.tfrecord idxDirPresent idxFileIsFile)

/-! ### Cells 6-14: the pipeline classes -/

/-- A Python class declaration of the notebook: its name, the class it
directly derives from, and the methods its body defines. -/
structure ClassDecl where
  name : String
  parent : String
  methodsDefined : List String
deriving Repr, DecidableEq

def externalPipelineBase : String := "Pipeline"

def CommonPipeline_decl : ClassDecl :=
  { name := "CommonPipeline", parent := "Pipeline"
    methodsDefined := ["__init__", "base_define_graph"] }

def MXNetReaderPipeline_decl : ClassDecl :=
  { name := "MXNetReaderPipeline", parent := "CommonPipeline"
    methodsDefined := ["__init__", "define_graph"] }

def CaffeReadPipeline_decl : ClassDecl :=
  { name := "CaffeReadPipeline", parent := "CommonPipeline"
    methodsDefined := ["__init__", "define_graph"] }

def FileReadPipeline_decl : ClassDecl :=
  { name := "FileReadPipeline", parent := "CommonPipeline"
    methodsDefined := ["__init__", "define_graph"] }

def TFRecordPipeline_decl : ClassDecl :=
  { name := "TFRecordPipeline", parent := "CommonPipeline"
    methodsDefined := ["__init__", "define_graph"] }

def notebookPipelineClasses : List ClassDecl :=
  [CommonPipeline_decl, MXNetReaderPipeline_decl, CaffeReadPipeline_decl,
   FileReadPipeline_decl, TFRecordPipeline_decl]

def readerPipelineClasses : List ClassDecl :=
  [MXNetReaderPipeline_decl, CaffeReadPipeline_decl,
   FileReadPipeline_decl, TFRecordPipeline_decl]

/-- The four concrete reader pipeline classes of the notebook. -/
inductive PipeKind where
  | MXNetReaderPipeline
  | CaffeReadPipeline
  | FileReadPipeline
  | TFRecordPipeline
deriving Repr, DecidableEq

def pipeKindName : PipeKind → String
  | .MXNetReaderPipeline => "MXNetReaderPipeline"
  | .CaffeReadPipeline => "CaffeReadPipeline"
  | .FileReadPipeline => "FileReadPipeline"
  | .TFRecordPipeline => "TFRecordPipeline"

/-- Operator-graph expressions produced by the `define_graph` methods. -/
inductive DaliExpr where
  | readerImages (k : PipeKind)
  | readerLabels (k : PipeKind)
  | uniform (lo hi : ℚ)
  | decode (input : DaliExpr)
  | resize (input shorter : DaliExpr)
  | cropMirrorNormalize (input posX posY : DaliExpr)
  | gpu (input : DaliExpr)
deriving Repr, DecidableEq

/-- CommonPipeline.base_define_graph: decode the inputs, resize with a
random shorter side drawn from Uniform(256, 480), crop-mirror-normalize
with random crop positions from Uniform(0, 1), and pair the result with the
labels moved to GPU. -/
def base_define_graph (inputs labels : DaliExpr) : DaliExpr × DaliExpr :=
  let images := DaliExpr.decode inputs
  let resized := DaliExpr.resize images (DaliExpr.uniform 256 480)
  let output :=
    DaliExpr.cropMirrorNormalize resized (DaliExpr.uniform 0 1) (DaliExpr.uniform 0 1)
  (output, DaliExpr.gpu labels)

/-- Each subclass's define_graph: run its reader and hand both outputs to
`base_define_graph`. -/
def define_graph (k : PipeKind) : DaliExpr × DaliExpr :=
  base_define_graph (DaliExpr.readerImages k) (DaliExpr.readerLabels k)

/-- A TFRecord FixedLenFeature declaration: shape and default value. -/
inductive FeatureSpec where
  | fixedLenString (shape : List Nat) (defaultVal : String)
  | fixedLenInt (shape : List Nat) (defaultVal : Int)
deriving Repr, DecidableEq

/-- The features dictionary of TFRecordPipeline's TFRecordReader. -/
def tfrecordFeatures : List (String × FeatureSpec) :=
  [("image/encoded", FeatureSpec.fixedLenString [] ""),
   ("image/class/label", FeatureSpec.fixedLenInt [1] (-1))]

/-- A reader operator together with the keyword options its constructor was
given in the notebook; a constructor carries exactly the options passed. -/
inductive ReaderOp where
  | mxnetReader (path index_path : List String) (random_shuffle : Bool)
      (shard_id num_shards : Nat)
  | caffeReader (path : String) (random_shuffle : Bool) (shard_id num_shards : Nat)
  | fileReader (file_root : String)
  | tfRecordReader (path index_path : String) (features : List (String × FeatureSpec))
deriving Repr, DecidableEq

/-- The shard_id keyword option a reader was constructed with, when any. -/
def readerShardId : ReaderOp → Option Nat
  | .mxnetReader _ _ _ s _ => some s
  | .caffeReader _ _ s _ => some s
  | .fileReader _ => none
  | .tfRecordReader _ _ _ => none

/-- The num_shards keyword option a reader was constructed with, when any. -/
def readerNumShards : ReaderOp → Option Nat
  | .mxnetReader _ _ _ _ g => some g
  | .caffeReader _ _ _ g => some g
  | .fileReader _ => none
  | .tfRecordReader _ _ _ => none

/-- The random_shuffle keyword option a reader was constructed with, when any. -/
def readerRandomShuffle : ReaderOp → Option Bool
  | .mxnetReader _ _ r _ _ => some r
  | .caffeReader _ r _ _ => some r
  | .fileReader _ => none
  | .tfRecordReader _ _ _ => none

/-- The reader operator each pipeline class's __init__ constructs. -/
def mkReader (k : PipeKind) (p : Paths) (device_id num_gpus : Nat) : ReaderOp :=
  match k with
  | .MXNetReaderPipeline =>
      ReaderOp.mxnetReader [p.db_folder ++ "train.rec"] [p.db_folder ++ "train.idx"]
        true device_id num_gpus
  | .CaffeReadPipeline => ReaderOp.caffeReader p.lmdb_folder true device_id num_gpus
  | .FileReadPipeline => ReaderOp.fileReader image_dir
  | .TFRecordPipeline => ReaderOp.tfRecordReader p.tfrecord tfrecord_idx tfrecordFeatures

/-- A constructed pipeline object: the constructor arguments it received and
the one reader operator its __init__ created. -/
structure PipelineInstance where
  kind : PipeKind
  batch_size : Nat
  num_threads : Nat
  device_id : Nat
  num_gpus : Nat
  reader : ReaderOp
deriving Repr, DecidableEq

def mkPipeline (k : PipeKind) (batch_size num_threads device_id num_gpus : Nat)
    (p : Paths) : PipelineInstance :=
  { kind := k, batch_size := batch_size, num_threads := num_threads
    device_id := device_id, num_gpus := num_gpus
    reader := mkReader k p device_id num_gpus }

/-! ### Cell 16: one pipeline per simulated GPU -/

/-- Cell-16 get_batch_test_dali: build one pipeline per device id in
`range(N)`, each with `num_threads = 2` and `num_gpus = N`. -/
def get_batch_test_dali (batch_size : Nat) (k : PipeKind) (p : Paths) :
    List PipelineInstance :=
  (List.range N).map (fun device_id => mkPipeline k batch_size 2 device_id N p)

/-! ### Cell 18: the self-test loop -/

/-- TensorFlow label dtypes used in pipe_types. -/
inductive TFDType where
  | float32
  | int32
  | int64
deriving Repr, DecidableEq

/-- One row of the notebook's pipe_types table: the pipeline class, the
label dtype handed to the DALI iterator, and the inclusive label range the
assertions check. -/
structure PipeTypeEntry where
  cls : PipeKind
  label_type : TFDType
  lo : ℚ
  hi : ℚ
deriving Repr, DecidableEq

def pipe_types : List PipeTypeEntry :=
  [{ cls := .MXNetReaderPipeline, label_type := .float32, lo := 0, hi := 999 },
   { cls := .CaffeReadPipeline, label_type := .int32, lo := 0, hi := 999 },
   { cls := .FileReadPipeline, label_type := .int32, lo := 0, hi := 1 },
   { cls := .TFRecordPipeline, label_type := .int64, lo := 1, hi := 1000 }]

/-- The lower bound pipe_types assigns to a pipeline class. -/
def loOf : PipeKind → ℚ
  | .MXNetReaderPipeline => 0
  | .CaffeReadPipeline => 0
  | .FileReadPipeline => 0
  | .TFRecordPipeline => 1

/-- The upper bound pipe_types assigns to a pipeline class. -/
def hiOf : PipeKind → ℚ
  | .MXNetReaderPipeline => 999
  | .CaffeReadPipeline => 999
  | .FileReadPipeline => 1
  | .TFRecordPipeline => 1000

/-- numpy np.mod(x, 1): the fractional part x - floor(x). -/
def npMod1 (x : ℚ) : ℚ := x - (⌊x⌋ : ℚ)

/-- Which of the three label assertions of cell-18 failed first. -/
inductive AssertKind where
  | integral
  | lowerBound
  | upperBound
deriving Repr, DecidableEq

/-- assert(np.equal(np.mod(label, 1), 0).all()) over one device's label array. -/
def assertsIntegral (batch : List ℚ) : Bool :=
  batch.all (fun x => decide (npMod1 x = 0))

/-- assert((label >= lo).all()) over one device's label array. -/
def assertsLower (lo : ℚ) (batch : List ℚ) : Bool :=
  batch.all (fun x => decide (lo ≤ x))

/-- assert((label <= hi).all()) over one device's label array. -/
def assertsUpper (hi : ℚ) (batch : List ℚ) : Bool :=
  batch.all (fun x => decide (x ≤ hi))

/-- The three assertions of cell-18 in source order on one label array:
the first failing one, or none when all pass. -/
def batchFirstFailure (lo hi : ℚ) (batch : List ℚ) : Option AssertKind :=
  if assertsIntegral batch = false then some AssertKind.integral
  else if assertsLower lo batch = false then some AssertKind.lowerBound
  else if assertsUpper hi batch = false then some AssertKind.upperBound
  else none

/-- The inner `for label in labels` loop of one iteration: labels is the
list of per-device label arrays; the first failed assertion aborts it. -/
def devicesFirstFailure (lo hi : ℚ) : List (List ℚ) → Option AssertKind
  | [] => none
  | b :: rest =>
    match batchFirstFailure lo hi b with
    | some k => some k
    | none => devicesFirstFailure lo hi rest

/-- The `for i in range(ITERATIONS)` loop starting at iteration i with r
iterations left: the first failing iteration and its assertion, or none. -/
def runIterationsFrom (lo hi : ℚ) (feed : Nat → List (List ℚ)) :
    Nat → Nat → Option (Nat × AssertKind)
  | _, 0 => none
  | i, r + 1 =>
    match devicesFirstFailure lo hi (feed i) with
    | some k => some (i, k)
    | none => runIterationsFrom lo hi feed (i + 1) r

/-- One pipeline type's session: ITERATIONS iterations of pulling the fed
label arrays and asserting on them. -/
def runSession (lo hi : ℚ) (feed : Nat → List (List ℚ)) : Option (Nat × AssertKind) :=
  runIterationsFrom lo hi feed 0 ITERATIONS

/-- What the external library returns: for a pipeline class and an
iteration index, the per-device label arrays of that iteration. -/
def LabelFeed : Type := PipeKind → Nat → List (List ℚ)

def runLine (k : PipeKind) : String := "RUN: " ++ pipeKindName k

def okLine (k : PipeKind) : String := "OK : " ++ pipeKindName k

/-- The `for pipe_name in pipe_types` loop of cell-18 over the remaining
entries: the printed lines and whether the cell ran to completion. A failed
assertion raises, so it stops the whole cell: no OK line for that entry and
no lines for later entries. -/
def runTestCellFrom (feed : LabelFeed) : List PipeTypeEntry → List String × Bool
  | [] => ([], true)
  | e :: rest =>
    match runSession e.lo e.hi (feed e.cls) with
    | some _ => ([runLine e.cls], false)
    | none =>
      let tail := runTestCellFrom feed rest
      (runLine e.cls :: okLine e.cls :: tail.1, tail.2)

/-- Cell-18 as a whole: the loop over pipe_types. -/
def runTestCell (feed : LabelFeed) : List String × Bool :=
  runTestCellFrom feed pipe_types

/-! ### Helper lemmas about the assertion model -/

theorem npMod1_eq_zero_iff (x : ℚ) : npMod1 x = 0 ↔ ∃ n : ℤ, x = (n : ℚ) := by
  constructor
  · intro h
    exact ⟨⌊x⌋, sub_eq_zero.mp h⟩
  · rintro ⟨n, rfl⟩
    simp [npMod1]

theorem assertsIntegral_iff (batch : List ℚ) :
    assertsIntegral batch = true ↔ ∀ x ∈ batch, ∃ n : ℤ, x = (n : ℚ) := by
  simp [assertsIntegral, npMod1_eq_zero_iff]

theorem assertsLower_iff (lo : ℚ) (batch : List ℚ) :
    assertsLower lo batch = true ↔ ∀ x ∈ batch, lo ≤ x := by
  simp [assertsLower]

theorem assertsUpper_iff (hi : ℚ) (batch : List ℚ) :
    assertsUpper hi batch = true ↔ ∀ x ∈ batch, x ≤ hi := by
  simp [assertsUpper]

theorem batchFirstFailure_eq_none_iff_bool (lo hi : ℚ) (batch : List ℚ) :
    batchFirstFailure lo hi batch = none ↔
      assertsIntegral batch = true ∧ assertsLower lo batch = true ∧
        assertsUpper hi batch = true := by
  unfold batchFirstFailure
  split_ifs with h1 h2 h3 <;> simp_all

theorem batchFirstFailure_eq_none_iff (lo hi : ℚ) (batch : List ℚ) :
    batchFirstFailure lo hi batch = none ↔
      ∀ x ∈ batch, (∃ n : ℤ, x = (n : ℚ)) ∧ lo ≤ x ∧ x ≤ hi := by
  rw [batchFirstFailure_eq_none_iff_bool, assertsIntegral_iff, assertsLower_iff,
    assertsUpper_iff]
  constructor
  · rintro ⟨hI, hL, hU⟩ x hx
    exact ⟨hI x hx, hL x hx, hU x hx⟩
  · intro h
    exact ⟨fun x hx => (h x hx).1, fun x hx => (h x hx).2.1, fun x hx => (h x hx).2.2⟩

theorem devicesFirstFailure_eq_none_iff (lo hi : ℚ) (arrays : List (List ℚ)) :
    devicesFirstFailure lo hi arrays = none ↔
      ∀ b ∈ arrays, batchFirstFailure lo hi b = none := by
  induction arrays with
  | nil => simp [devicesFirstFailure]
  | cons b rest ih =>
    cases h : batchFirstFailure lo hi b with
    | some k => simp [devicesFirstFailure, h]
    | none => simp [devicesFirstFailure, h, ih]

theorem runIterationsFrom_eq_none_iff (lo hi : ℚ) (feed : Nat → List (List ℚ)) :
    ∀ r i, runIterationsFrom lo hi feed i r = none ↔
      ∀ j, j < r → devicesFirstFailure lo hi (feed (i + j)) = none := by
  intro r
  induction r with
  | zero => simp [runIterationsFrom]
  | succ r ih =>
    intro i
    cases hd : devicesFirstFailure lo hi (feed i) with
    | some k =>
      simp only [runIterationsFrom, hd]
      constructor
      · intro h
        exact absurd h (by simp)
      · intro h
        have h0 := h 0 (by omega)
        rw [Nat.add_zero] at h0
        rw [hd] at h0
        exact absurd h0 (by simp)
    | none =>
      simp only [runIterationsFrom, hd]
      rw [ih (i + 1)]
      constructor
      · intro h j hj
        cases j with
        | zero => simpa using hd
        | succ j =>
          have hj2 : j < r := by omega
          have := h j hj2
          have e : i + 1 + j = i + (j + 1) := by omega
          rwa [e] at this
      · intro h j hj
        have := h (j + 1) (by omega)
        have e : i + (j + 1) = i + 1 + j := by omega
        rwa [e] at this

theorem runSession_eq_none_iff (lo hi : ℚ) (feed : Nat → List (List ℚ)) :
    runSession lo hi feed = none ↔
      ∀ i, i < ITERATIONS → devicesFirstFailure lo hi (feed i) = none := by
  rw [runSession, runIterationsFrom_eq_none_iff]
  simp

theorem runIterationsFrom_some_le (lo hi : ℚ) (feed : Nat → List (List ℚ)) :
    ∀ r i0 i k, runIterationsFrom lo hi feed i0 r = some (i, k) → i0 ≤ i := by
  intro r
  induction r with
  | zero => intro i0 i k h; simp [runIterationsFrom] at h
  | succ r ih =>
    intro i0 i k h
    cases hd : devicesFirstFailure lo hi (feed i0) with
    | some k0 =>
      rw [runIterationsFrom, hd] at h
      cases h
      exact Nat.le_refl _
    | none =>
      rw [runIterationsFrom, hd] at h
      have := ih (i0 + 1) i k h
      omega

theorem runIterationsFrom_agree (lo hi : ℚ) (feed feedB : Nat → List (List ℚ)) :
    ∀ r i0 i k, runIterationsFrom lo hi feed i0 r = some (i, k) →
      (∀ j, i0 ≤ j → j ≤ i → feedB j = feed j) →
      runIterationsFrom lo hi feedB i0 r = some (i, k) := by
  intro r
  induction r with
  | zero => intro i0 i k h _; simp [runIterationsFrom] at h
  | succ r ih =>
    intro i0 i k h hagree
    cases hd : devicesFirstFailure lo hi (feed i0) with
    | some k0 =>
      rw [runIterationsFrom, hd] at h
      cases h
      have hB : feedB i0 = feed i0 := hagree i0 (Nat.le_refl _) (Nat.le_refl _)
      rw [runIterationsFrom, hB, hd]
    | none =>
      rw [runIterationsFrom, hd] at h
      have hle : i0 + 1 ≤ i := runIterationsFrom_some_le lo hi feed r (i0 + 1) i k h
      have hB : feedB i0 = feed i0 := hagree i0 (Nat.le_refl _) (by omega)
      rw [runIterationsFrom, hB, hd]
      exact ih (i0 + 1) i k h (fun j hj1 hj2 => hagree j (by omega) hj2)

theorem runIterationsFrom_head_some (lo hi : ℚ) (feed : Nat → List (List ℚ))
    (i r : Nat) (k : AssertKind) (hd : devicesFirstFailure lo hi (feed i) = some k) :
    runIterationsFrom lo hi feed i (r + 1) = some (i, k) := by
  rw [runIterationsFrom, hd]

theorem okLine_ne_runLine (k c : PipeKind) : okLine k ≠ runLine c := by
  cases k <;> cases c <;> decide

theorem okLine_injective (k1 k2 : PipeKind) (h : okLine k1 = okLine k2) : k1 = k2 := by
  cases k1 <;> cases k2 <;> first | rfl | exact absurd h (by decide)

theorem runTestCellFrom_true_all_pass (feed : LabelFeed) :
    ∀ entries, (runTestCellFrom feed entries).2 = true →
      ∀ e ∈ entries, runSession e.lo e.hi (feed e.cls) = none := by
  intro entries
  induction entries with
  | nil => simp
  | cons e rest ih =>
    intro h e2 hmem
    cases hs : runSession e.lo e.hi (feed e.cls) with
    | some p =>
      rw [runTestCellFrom, hs] at h
      simp at h
    | none =>
      simp only [runTestCellFrom, hs] at h
      rcases List.mem_cons.mp hmem with he | hrest
      · subst he
        exact hs
      · exact ih h e2 hrest

theorem okLine_mem_spec (feed : LabelFeed) :
    ∀ entries (k : PipeKind), okLine k ∈ (runTestCellFrom feed entries).1 →
      ∃ e ∈ entries, e.cls = k ∧ runSession e.lo e.hi (feed e.cls) = none ∧
        runLine k ∈ (runTestCellFrom feed entries).1 := by
  intro entries
  induction entries with
  | nil => simp [runTestCellFrom]
  | cons e rest ih =>
    intro k hmem
    cases hs : runSession e.lo e.hi (feed e.cls) with
    | some p =>
      simp only [runTestCellFrom, hs] at hmem
      rcases List.mem_singleton.mp hmem with h
      exact absurd h (okLine_ne_runLine k e.cls)
    | none =>
      simp only [runTestCellFrom, hs] at hmem ⊢
      rcases List.mem_cons.mp hmem with h1 | hmem2
      · exact absurd h1 (okLine_ne_runLine k e.cls)
      rcases List.mem_cons.mp hmem2 with h2 | hmem3
      · have hk : e.cls = k := (okLine_injective k e.cls h2).symm
        refine ⟨e, List.mem_cons_self e rest, hk, hs, ?_⟩
        rw [hk]
        exact List.mem_cons_self _ _
      · obtain ⟨e2, hmem4, hcls, hs2, hrun⟩ := ih k hmem3
        exact ⟨e2, List.mem_cons_of_mem e hmem4, hcls, hs2,
          List.mem_cons_of_mem _ (List.mem_cons_of_mem _ hrun)⟩

theorem runTestCellFrom_head (feed : LabelFeed) (e : PipeTypeEntry)
    (rest : List PipeTypeEntry) :
    (runTestCellFrom feed (e :: rest)).1.head? = some (runLine e.cls) := by
  cases hs : runSession e.lo e.hi (feed e.cls) <;> simp [runTestCellFrom, hs]

/-! ### The claims -/

/-- C1: the self-test loop's only correctness checks are the three label
assertions: a label array passes iff every label is integral and lies in
the reader-specific closed range; the table assigns [0,999] to
MXNetReaderPipeline, [0,999] to CaffeReadPipeline, [0,1] to
FileReadPipeline and [1,1000] to TFRecordPipeline; and each pipeline
type's session runs the checks for the fixed ITERATIONS = 32 iterations. -/
theorem C1_self_test_checks :
    (∀ (lo hi : ℚ) (batch : List ℚ),
      batchFirstFailure lo hi batch = none ↔
        ∀ x ∈ batch, (∃ n : ℤ, x = (n : ℚ)) ∧ lo ≤ x ∧ x ≤ hi) ∧
    pipe_types.map (fun e => (e.cls, e.lo, e.hi)) =
      [(PipeKind.MXNetReaderPipeline, (0 : ℚ), (999 : ℚ)),
       (PipeKind.CaffeReadPipeline, 0, 999),
       (PipeKind.FileReadPipeline, 0, 1),
       (PipeKind.TFRecordPipeline, 1, 1000)] ∧
    ITERATIONS = 32 ∧
    (∀ (lo hi : ℚ) (feed : Nat → List (List ℚ)),
      runSession lo hi feed = none ↔
        ∀ i, i < 32 → devicesFirstFailure lo hi (feed i) = none) := by
  refine ⟨batchFirstFailure_eq_none_iff, rfl, rfl, ?_⟩
  intro lo hi feed
  exact runSession_eq_none_iff lo hi feed

/-- C2 counterexample: it is not true that every pipeline class shown in
the notebook is a direct subclass of the external base class `Pipeline`:
the four reader classes derive directly from `CommonPipeline`, which the
notebook itself defines. -/
theorem C2_counterexample :
    ¬ (∀ c ∈ notebookPipelineClasses, c.parent = externalPipelineBase) := by
  decide

/-- C2 amended: CommonPipeline is the class derived directly from the
external base `Pipeline`; each of the four reader pipeline classes is a
direct subclass of CommonPipeline, and each defines exactly the two
methods `__init__` (which constructs the pipeline's single reader
operator with its keyword options) and `define_graph` (which calls the
shared helper `base_define_graph` chaining decode, resize and
crop-normalize). -/
theorem C2_amended_class_structure :
    CommonPipeline_decl.parent = externalPipelineBase ∧
    (∀ c ∈ readerPipelineClasses,
      c.parent = CommonPipeline_decl.name ∧
        c.methodsDefined = ["__init__", "define_graph"]) ∧
    (∀ k, define_graph k =
      base_define_graph (DaliExpr.readerImages k) (DaliExpr.readerLabels k)) ∧
    (∀ k bs nt d g p, (mkPipeline k bs nt d g p).reader = mkReader k p d g) := by
  exact ⟨rfl, by decide, fun k => rfl, fun k bs nt d g p => rfl⟩

/-- C3: cell-4 invokes the external tfrecord2idx script (as the single
subprocess call `[tfrecord2idx, tfrecord, tfrecord_idx]`) exactly when the
index file is not already present; when the index file is present, no
external command is invoked (and the model records no other effect that
could touch the file). -/
theorem C3_index_file_setup :
    (∀ tfp dirP, (cell4 tfp dirP true).subprocessCalls = []) ∧
    (∀ tfp dirP, (cell4 tfp dirP false).subprocessCalls =
      [[tfrecord2idx_script, tfp, tfrecord_idx]]) ∧
    (∀ tfp dirP fileP,
      (cell4 tfp dirP fileP).subprocessCalls ≠ [] ↔ fileP = false) := by
  refine ⟨fun tfp dirP => rfl, fun tfp dirP => rfl, ?_⟩
  intro tfp dirP fileP
  cases fileP <;> simp [cell4]

/-- C4: every pipeline's graph applies decode, then resize, then
crop/normalize, in that order, to its reader's image output, and returns
the processed images paired with the reader's labels moved to GPU. -/
theorem C4_graph_order :
    ∀ k, define_graph k =
      (DaliExpr.cropMirrorNormalize
        (DaliExpr.resize (DaliExpr.decode (DaliExpr.readerImages k))
          (DaliExpr.uniform 256 480))
        (DaliExpr.uniform 0 1) (DaliExpr.uniform 0 1),
       DaliExpr.gpu (DaliExpr.readerLabels k)) :=
  fun _ => rfl

/-- C5: a failed label assertion aborts the test cell: when the session of
the first remaining pipeline type fails at iteration i, the cell prints
only that type's RUN line (no OK line, no lines for any later pipeline
type, whatever those types are) and does not complete; moreover the
outcome is unchanged by whatever the feed would have returned after the
failing iteration, i.e. no further iteration is consulted. -/
theorem C5_failed_assertion_aborts (feed : LabelFeed) (e : PipeTypeEntry)
    (rest : List PipeTypeEntry) (i : Nat) (k : AssertKind)
    (h : runSession e.lo e.hi (feed e.cls) = some (i, k)) :
    runTestCellFrom feed (e :: rest) = ([runLine e.cls], false) ∧
    okLine e.cls ∉ (runTestCellFrom feed (e :: rest)).1 ∧
    (∀ feedB : Nat → List (List ℚ), (∀ j, j ≤ i → feedB j = feed e.cls j) →
      runSession e.lo e.hi feedB = some (i, k)) := by
  have hcell : runTestCellFrom feed (e :: rest) = ([runLine e.cls], false) := by
    rw [runTestCellFrom, h]
  refine ⟨hcell, ?_, ?_⟩
  · rw [hcell]
    intro hmem
    exact okLine_ne_runLine e.cls e.cls (List.mem_singleton.mp hmem)
  · intro feedB hB
    exact runIterationsFrom_agree e.lo e.hi (feed e.cls) feedB ITERATIONS 0 i k h
      (fun j _ hj2 => hB j hj2)

/-- C5 witness: with a feed whose only label is 5 and the FileReadPipeline
row bounds [0, 1], the session fails at iteration 0 on the upper-bound
assertion and the cell stops after the RUN line. -/
theorem C5_witness :
    runTestCellFrom (fun _ _ => [[(5 : ℚ)]])
        [{ cls := PipeKind.FileReadPipeline, label_type := TFDType.int32,
           lo := 0, hi := 1 }] =
      ([runLine PipeKind.FileReadPipeline], false) := by
  have hm : npMod1 (5 : ℚ) = 0 := (npMod1_eq_zero_iff 5).mpr ⟨5, by norm_num⟩
  have hint : assertsIntegral [(5 : ℚ)] = true := by simp [assertsIntegral, hm]
  have hlow : assertsLower (0 : ℚ) [(5 : ℚ)] = true := by
    rw [assertsLower_iff]
    intro x hx
    rw [List.mem_singleton.mp hx]
    norm_num
  have hup : assertsUpper (1 : ℚ) [(5 : ℚ)] = false := by
    rw [← Bool.not_eq_true, assertsUpper_iff]
    intro hall
    have := hall 5 (List.mem_singleton_self 5)
    norm_num at this
  have hb : batchFirstFailure (0 : ℚ) 1 [(5 : ℚ)] = some AssertKind.upperBound := by
    rw [batchFirstFailure, hint, hlow, hup]
    simp
  have hdev : devicesFirstFailure (0 : ℚ) 1 [[(5 : ℚ)]] = some AssertKind.upperBound := by
    rw [devicesFirstFailure, hb]
  have hsess : runSession (0 : ℚ) 1 (fun _ => [[(5 : ℚ)]]) =
      some (0, AssertKind.upperBound) :=
    runIterationsFrom_head_some 0 1 (fun _ => [[(5 : ℚ)]]) 0 31 AssertKind.upperBound hdev
  exact (C5_failed_assertion_aborts (fun _ _ => [[(5 : ℚ)]])
    { cls := PipeKind.FileReadPipeline, label_type := TFDType.int32, lo := 0, hi := 1 }
    [] 0 AssertKind.upperBound hsess).1

/-- C6: the self-test processes the pipeline types in the fixed order
MXNetReaderPipeline, CaffeReadPipeline, FileReadPipeline, TFRecordPipeline;
the RUN line of a type is the first line it prints, before any batch of
that type is consulted; when every type passes, the output is exactly the
RUN/OK pairs in that order; and an OK line for a type appears only when
that type's whole session passed all assertions (and then its RUN line was
also printed). -/
theorem C6_run_ok_status_lines :
    pipe_types.map PipeTypeEntry.cls =
      [PipeKind.MXNetReaderPipeline, PipeKind.CaffeReadPipeline,
       PipeKind.FileReadPipeline, PipeKind.TFRecordPipeline] ∧
    (∀ (feed : LabelFeed) (e : PipeTypeEntry) (rest : List PipeTypeEntry),
      (runTestCellFrom feed (e :: rest)).1.head? = some (runLine e.cls)) ∧
    (∀ feed : LabelFeed,
      (∀ e ∈ pipe_types, runSession e.lo e.hi (feed e.cls) = none) →
        runTestCell feed =
          ([runLine PipeKind.MXNetReaderPipeline, okLine PipeKind.MXNetReaderPipeline,
            runLine PipeKind.CaffeReadPipeline, okLine PipeKind.CaffeReadPipeline,
            runLine PipeKind.FileReadPipeline, okLine PipeKind.FileReadPipeline,
            runLine PipeKind.TFRecordPipeline, okLine PipeKind.TFRecordPipeline],
           true)) ∧
    (∀ (feed : LabelFeed) (k : PipeKind),
      okLine k ∈ (runTestCell feed).1 →
        runSession (loOf k) (hiOf k) (feed k) = none ∧
          runLine k ∈ (runTestCell feed).1) := by
  refine ⟨rfl, runTestCellFrom_head, ?_, ?_⟩
  · intro feed h
    have h1 : runSession 0 999 (feed PipeKind.MXNetReaderPipeline) = none :=
      h { cls := PipeKind.MXNetReaderPipeline, label_type := TFDType.float32,
          lo := 0, hi := 999 } (by simp [pipe_types])
    have h2 : runSession 0 999 (feed PipeKind.CaffeReadPipeline) = none :=
      h { cls := PipeKind.CaffeReadPipeline, label_type := TFDType.int32,
          lo := 0, hi := 999 } (by simp [pipe_types])
    have h3 : runSession 0 1 (feed PipeKind.FileReadPipeline) = none :=
      h { cls := PipeKind.FileReadPipeline, label_type := TFDType.int32,
          lo := 0, hi := 1 } (by simp [pipe_types])
    have h4 : runSession 1 1000 (feed PipeKind.TFRecordPipeline) = none :=
      h { cls := PipeKind.TFRecordPipeline, label_type := TFDType.int64,
          lo := 1, hi := 1000 } (by simp [pipe_types])
    simp [runTestCell, pipe_types, runTestCellFrom, h1, h2, h3, h4]
  · intro feed k hmem
    obtain ⟨e, hmem2, hcls, hs, hrun⟩ := okLine_mem_spec feed pipe_types k hmem
    refine ⟨?_, hrun⟩
    simp only [pipe_types, List.mem_cons, List.not_mem_nil, or_false] at hmem2
    rcases hmem2 with rfl | rfl | rfl | rfl <;> (subst hcls; exact hs)

/-- C7: get_batch_test_dali builds one pipeline per simulated device:
N = 8 pipelines, the d-th constructed with device_id = d and num_gpus = N,
with num_threads = 2 and the given batch size; and the self-test pulls
batches for the fixed ITERATIONS = 32 iterations per pipeline type,
asserting on every pulled label array. -/
theorem C7_one_pipeline_per_device :
    N = 8 ∧ BATCH_SIZE = 128 ∧ ITERATIONS = 32 ∧
    (∀ bs k p, (get_batch_test_dali bs k p).length = N) ∧
    (∀ bs k p d, d < N →
      (get_batch_test_dali bs k p)[d]? = some (mkPipeline k bs 2 d N p)) ∧
    (∀ k bs nt d g p,
      (mkPipeline k bs nt d g p).device_id = d ∧
        (mkPipeline k bs nt d g p).num_gpus = g ∧
        (mkPipeline k bs nt d g p).batch_size = bs ∧
        (mkPipeline k bs nt d g p).num_threads = nt) ∧
    (∀ (lo hi : ℚ) (feed : Nat → List (List ℚ)),
      runSession lo hi feed = none ↔
        ∀ i, i < ITERATIONS → devicesFirstFailure lo hi (feed i) = none) := by
  refine ⟨rfl, rfl, rfl, ?_, ?_, fun k bs nt d g p => ⟨rfl, rfl, rfl, rfl⟩,
    runSession_eq_none_iff⟩
  · intro bs k p
    simp [get_batch_test_dali]
  · intro bs k p d hd
    simp [get_batch_test_dali, List.getElem?_map, List.getElem?_range, hd]

/-- C8: when DALI_EXTRA_PATH is unset, the setup raises KeyError before
cell-4 runs, so no index file is generated and no paths (hence no
pipeline) are produced; cell-2 reads only that one environment variable
(its result depends on nothing else in the environment); and when the
variable is set, db_folder, lmdb_folder and the tfrecord path are all
derived from it by path joins. -/
theorem C8_env_variable :
    (∀ env : String → Option String, env ENV_KEY = none →
      ∀ dirP fileP, runSetup env dirP fileP =
        Except.error "KeyError: DALI_EXTRA_PATH") ∧
    (∀ env1 env2 : String → Option String, env1 ENV_KEY = env2 ENV_KEY →
      cell2 env1 = cell2 env2) ∧
    (∀ (env : String → Option String) (root : String), env ENV_KEY = some root →
      cell2 env = Except.ok
        { test_data_root := root
          db_folder := pathJoin (pathJoin root "db") "recordio/"
          lmdb_folder := pathJoin (pathJoin root "db") "lmdb"
          tfrecord := pathJoin (pathJoin (pathJoin root "db") "tfrecord") "train" }) := by
  refine ⟨?_, ?_, ?_⟩
  · intro env h dirP fileP
    simp [runSetup, cell2, h]
  · intro env1 env2 h
    simp only [cell2]
    rw [h]
  · intro env root h
    simp [cell2, h]

/-- C9: FileReadPipeline's reader is constructed from the fixed image
directory alone, with no shard_id, num_shards or random_shuffle keyword,
independently of the device_id and num_gpus constructor arguments; hence
all N per-device FileReadPipeline instances carry an identical unsharded,
unshuffled reader — unlike the MXNet and Caffe pipelines, whose readers
differ between device ids. -/
theorem C9_filereader_device_independent :
    (∀ bs nt d g p, (mkPipeline PipeKind.FileReadPipeline bs nt d g p).reader =
      ReaderOp.fileReader image_dir) ∧
    readerShardId (ReaderOp.fileReader image_dir) = none ∧
    readerNumShards (ReaderOp.fileReader image_dir) = none ∧
    readerRandomShuffle (ReaderOp.fileReader image_dir) = none ∧
    (∀ (p : Paths) (bs i j : Nat) (a b : PipelineInstance),
      (get_batch_test_dali bs PipeKind.FileReadPipeline p)[i]? = some a →
      (get_batch_test_dali bs PipeKind.FileReadPipeline p)[j]? = some b →
      a.reader = b.reader) ∧
    (∀ p bs nt g d1 d2, d1 ≠ d2 →
      (mkPipeline PipeKind.MXNetReaderPipeline bs nt d1 g p).reader ≠
        (mkPipeline PipeKind.MXNetReaderPipeline bs nt d2 g p).reader ∧
      (mkPipeline PipeKind.CaffeReadPipeline bs nt d1 g p).reader ≠
        (mkPipeline PipeKind.CaffeReadPipeline bs nt d2 g p).reader) := by
  have hfile : ∀ bs p, ∀ x ∈ get_batch_test_dali bs PipeKind.FileReadPipeline p,
      x.reader = ReaderOp.fileReader image_dir := by
    intro bs p x hx
    simp only [get_batch_test_dali, List.mem_map] at hx
    obtain ⟨d, _, rfl⟩ := hx
    rfl
  refine ⟨fun bs nt d g p => rfl, rfl, rfl, rfl, ?_, ?_⟩
  · intro p bs i j a b hi hj
    have ha := hfile bs p a (List.getElem?_mem hi)
    have hb := hfile bs p b (List.getElem?_mem hj)
    rw [ha, hb]
  · intro p bs nt g d1 d2 hne
    constructor
    · intro heq
      simp only [mkPipeline, mkReader, ReaderOp.mxnetReader.injEq] at heq
      exact hne heq.2.2.2.1
    · intro heq
      simp only [mkPipeline, mkReader, ReaderOp.caffeReader.injEq] at heq
      exact hne heq.2.2.1

/-- C10: TFRecordPipeline's feature dictionary declares default values:
the empty string for image/encoded and -1 for image/class/label; the
default label -1 lies strictly below the asserted TFRecord lower bound 1,
so any label array that is otherwise integral but contains the default -1
fails exactly the lower-bound assertion, and a failing TFRecord session
means the test cell does not complete. -/
theorem C10_tfrecord_default_label :
    List.lookup "image/class/label" tfrecordFeatures =
      some (FeatureSpec.fixedLenInt [1] (-1)) ∧
    List.lookup "image/encoded" tfrecordFeatures =
      some (FeatureSpec.fixedLenString [] "") ∧
    ¬ (loOf PipeKind.TFRecordPipeline ≤ ((-1 : ℤ) : ℚ)) ∧
    (∀ batch : List ℚ, ((-1 : ℤ) : ℚ) ∈ batch →
      (∀ x ∈ batch, ∃ n : ℤ, x = (n : ℚ)) →
      batchFirstFailure (loOf PipeKind.TFRecordPipeline)
          (hiOf PipeKind.TFRecordPipeline) batch = some AssertKind.lowerBound) ∧
    (∀ feed : LabelFeed,
      runSession (loOf PipeKind.TFRecordPipeline) (hiOf PipeKind.TFRecordPipeline)
          (feed PipeKind.TFRecordPipeline) ≠ none →
        (runTestCell feed).2 = false) := by
  refine ⟨by decide, by decide, by norm_num [loOf], ?_, ?_⟩
  · intro batch hmem hall
    have hint : assertsIntegral batch = true := (assertsIntegral_iff batch).mpr hall
    have hlow : assertsLower (loOf PipeKind.TFRecordPipeline) batch = false := by
      rw [← Bool.not_eq_true, assertsLower_iff]
      intro hle
      have h2 : (1 : ℚ) ≤ ((-1 : ℤ) : ℚ) := hle _ hmem
      norm_num at h2
    rw [batchFirstFailure, hint, hlow]
    simp
  · intro feed hne
    by_contra hcon
    have htrue : (runTestCell feed).2 = true := by
      revert hcon
      cases (runTestCell feed).2 <;> simp
    have hall := runTestCellFrom_true_all_pass feed pipe_types htrue
      { cls := PipeKind.TFRecordPipeline, label_type := TFDType.int64,
        lo := 1, hi := 1000 } (by simp [pipe_types])
    exact hne hall

end VariousReaders
